import Mathlib

/-!
Shallow embedding of `src/app/android.c`, the JNI bridge of the
corfe83/mobile repository, together with theorems settling the claims
about it.

Modelling conventions:
- Java object references, classes, method ids and field ids are modelled
  as `Option Nat`: `none` is `NULL` (for method ids, `0`).
- The JNI environment is modelled as an oracle structure, one field per
  JNI call the C function performs; the C function becomes a Lean
  function from the file's global state and the oracle to the new global
  state, a trace of the calls it performed, and its return value.
- C byte buffers are modelled as total functions `Nat → Char`, C strings
  as `List Char` holding the bytes before the implicit NUL terminator.
- Each failure flag (`clipboardFailed`, `browserFailed`, ...) is an
  `unsigned char` in the source and is modelled as `Nat`.
-/

/-- The NUL byte used by `strncpy` padding and buffer initialisation. -/
def nulChar : Char := Char.ofNat 0

/-- `src` truncated to `n` bytes and NUL-padded up to exactly `n` bytes:
the block of bytes that `strncpy(dst, src, n)` writes. -/
def padTrunc (src : List Char) (n : Nat) : List Char :=
  src.take n ++ List.replicate (n - src.length) nulChar

/-- `strncpy(buf + off, src, n)` on a memory modelled as `Nat → Char`:
positions `off ≤ i < off + n` receive the truncated, NUL-padded source,
all other positions are untouched. -/
def cstrncpy (buf : Nat → Char) (off : Nat) (src : List Char) (n : Nat) : Nat → Char :=
  fun i => if off ≤ i ∧ i < off + n then (padTrunc src n).getD (i - off) nulChar else buf i

/-- `strnlen(s, n)` for a NUL-free content list `s`. -/
def strnlen (s : List Char) (n : Nat) : Nat := min s.length n

/-- The buffer effect of `copyExceptionMessage` (android.c:247-264):
`strncpy(out, prefix, maxSize)`, then, when `strnlen(prefix, maxSize)`
is smaller than `maxSize`, `strncpy(out+prefixSize, msg, maxSize-prefixSize)`
where `msg` is the Java exception's message. -/
def copyExceptionMessage (pre msg : List Char) (maxSize : Nat) (buf : Nat → Char) : Nat → Char :=
  let buf1 := cstrncpy buf 0 pre maxSize
  let prefixSize := strnlen pre maxSize
  if prefixSize < maxSize then cstrncpy buf1 prefixSize msg (maxSize - prefixSize) else buf1

/-- The pending-exception side of `copyExceptionMessage`: it calls
`ExceptionOccurred` and then unconditionally `ExceptionClear`
(android.c:248-249). -/
structure ExcEnv where
  pending : Option Nat

/-- `copyExceptionMessage` including its effect on the thread's pending
exception: the exception is read and cleared, and the buffer receives the
prefix and the exception's message text. -/
def copyExceptionMessageFull (_xe : ExcEnv) (msgText : List Char) (pre : List Char)
    (maxSize : Nat) (buf : Nat → Char) : ExcEnv × (Nat → Char) :=
  (⟨none⟩, copyExceptionMessage pre msgText maxSize buf)

/-- The file-scope mutable globals of android.c that the claims mention. -/
structure GlobalState where
  main_running : Nat
  current_class : Option Nat
  key_rune_method : Option Nat
  contextClass : Option Nat
  applicationContext : Option Nat
  clipboardManager : Option Nat
  clipDataClass : Option Nat
  clipDataConstructor : Option Nat
  clipDataItemClass : Option Nat
  clipDataItemConstructor : Option Nat
  clipDescriptionClass : Option Nat
  clipDescriptionConstructor : Option Nat
  getPrimaryClipFunc : Option Nat
  getItemAtFunc : Option Nat
  getTextFunc : Option Nat
  charSequencetoString : Option Nat
  setPrimaryClipFunc : Option Nat
  clipboardFailed : Nat
  clipboardLastError : Nat → Char
  intentClass : Option Nat
  intentConstructor : Option Nat
  uriClass : Option Nat
  uriParseFunc : Option Nat
  startActivityFunc : Option Nat
  actionViewString : Option Nat
  browserFailed : Nat
  browserInitCompleted : Nat
  browserLastError : Nat → Char

/-- The `ANativeActivity` argument: only its (mis-named) `clazz` object
is consulted by the modelled code. -/
structure Activity where
  clazz : Option Nat

/-- One observable action of the bridge: a JNI/loader call it performs,
a callback-pointer installation, or the forwarding calls into Go. -/
inductive JAct where
  | getObjectClass
  | newGlobalRef
  | findStaticGetRune
  | setCurrentContext
  | findGetTmpdir
  | callGetTmpdir
  | setTmpdirEnv (path : List Char)
  | dlsymMainMain
  | callMain (pc : Nat)
  | setCallback (name : String)
  | callOnCreate
  | jniCall (name : String)
  deriving DecidableEq, Repr

/-- Trace entry for the JNI calls done inside `copyExceptionMessage`. -/
def excTr : List JAct := [JAct.jniCall ("copyExceptionMessage")]

/-- The fourteen callback fields installed on `activity->callbacks`
(android.c:111-124), in source order. -/
def callbackNames : List String :=
  [("onStart"), ("onResume"), ("onSaveInstanceState"), ("onPause"), ("onStop"),
   ("onDestroy"), ("onWindowFocusChanged"), ("onNativeWindowCreated"),
   ("onNativeWindowRedrawNeeded"), ("onNativeWindowDestroyed"),
   ("onInputQueueCreated"), ("onInputQueueDestroyed"),
   ("onConfigurationChanged"), ("onLowMemory")]

/-- The unconditional tail of every `ANativeActivity_onCreate` call: the
fourteen callback installations followed by `onCreate(activity)`. -/
def callbackInstallTrace : List JAct :=
  callbackNames.map JAct.setCallback ++ [JAct.callOnCreate]

/-- Oracle for the JNI/loader calls done by `ANativeActivity_onCreate`. -/
structure OnCreateEnv where
  objectClass : Nat
  globalRef : Nat → Nat
  findGetRune : Option Nat
  findGetTmpdir : Option Nat
  tmpdir : List Char
  setenvOk : Bool
  mainPC : Nat

/-- `ANativeActivity_onCreate` (android.c:77-127): on the first call
(`main_running == 0`) it caches the activity class, looks up `getRune`,
publishes the context, sets `TMPDIR` from `getTmpdir()`, resolves
`main.main` with `dlsym` and calls `callMain`, then sets `main_running`;
every call installs the fourteen callbacks and forwards `onCreate`. -/
def ANativeActivity_onCreate (s : GlobalState) (e : OnCreateEnv) : GlobalState × List JAct :=
  let first :=
    if s.main_running = 0 then
      ({ s with current_class := some (e.globalRef e.objectClass),
                key_rune_method := e.findGetRune,
                main_running := 1 },
       [JAct.getObjectClass, JAct.newGlobalRef, JAct.findStaticGetRune,
        JAct.setCurrentContext, JAct.findGetTmpdir, JAct.callGetTmpdir,
        JAct.setTmpdirEnv e.tmpdir, JAct.dlsymMainMain, JAct.callMain e.mainPC])
    else (s, [])
  (first.1, first.2 ++ callbackInstallTrace)

/-- EGL integer constants used by the source, at their Khronos values. -/
def EGL_RENDERABLE_TYPE : Nat := 0x3040
def EGL_OPENGL_ES2_BIT : Nat := 0x0004
def EGL_SURFACE_TYPE : Nat := 0x3033
def EGL_WINDOW_BIT : Nat := 0x0004
def EGL_BLUE_SIZE : Nat := 0x3022
def EGL_GREEN_SIZE : Nat := 0x3023
def EGL_RED_SIZE : Nat := 0x3024
def EGL_DEPTH_SIZE : Nat := 0x3025
def EGL_CONFIG_CAVEAT : Nat := 0x3027
def EGL_NONE : Nat := 0x3038
def EGL_CONTEXT_CLIENT_VERSION : Nat := 0x3098

/-- The `RGB_888` attribute list (android.c:130-139). -/
def RGB_888 : List Nat :=
  [EGL_RENDERABLE_TYPE, EGL_OPENGL_ES2_BIT,
   EGL_SURFACE_TYPE, EGL_WINDOW_BIT,
   EGL_BLUE_SIZE, 8,
   EGL_GREEN_SIZE, 8,
   EGL_RED_SIZE, 8,
   EGL_DEPTH_SIZE, 16,
   EGL_CONFIG_CAVEAT, EGL_NONE,
   EGL_NONE]

/-- The context attribute list passed to `eglCreateContext`
(android.c:181). -/
def contextAttribs : List Nat := [EGL_CONTEXT_CLIENT_VERSION, 2, EGL_NONE]

/-- Reads an EGL attribute list as key/value pairs up to the
`EGL_NONE` terminator. -/
def parseAttribs : List Nat → List (Nat × Nat)
  | k :: v :: rest => if k = EGL_NONE then [] else (k, v) :: parseAttribs rest
  | _ => []

/-- The EGL globals `display` and `surface` (android.c:141-142);
`0` models `NULL` / `EGL_NO_SURFACE`. -/
structure EGLState where
  display : Nat
  surface : Nat

/-- Oracle for the EGL calls done by `createEGLSurface`. -/
structure EGLEnv where
  getDisplay : Nat
  initOk : Bool
  chooseConfig : List Nat → Bool
  numConfigs : Int
  nativeVisualFormat : Int
  setBuffersGeometry : Int → Int
  createWindowSurface : Nat
  createContext : List Nat → Nat
  makeCurrent : Nat → Nat → Bool

/-- `initEGLDisplay` (android.c:144-150): fetches the default display and
initialises it, reporting `"EGL initialize failed"` when
`eglInitialize` fails. -/
def initEGLDisplay (st : EGLState) (e : EGLEnv) : EGLState × Option (List Char) :=
  let st1 : EGLState := { st with display := e.getDisplay }
  if ¬ e.initOk then (st1, some (("EGL initialize failed").toList))
  else (st1, none)

/-- `createEGLSurface` (android.c:152-188). The returned `Option` is the
C `char*`: `none` is the `NULL` success return, `some err` an error
string. Note that the source never checks the result of
`eglCreateContext`; only the following `eglMakeCurrent` is checked. -/
def createEGLSurface (st : EGLState) (e : EGLEnv) : EGLState × Option (List Char) :=
  let step0 : EGLState × Option (List Char) :=
    if st.display = 0 then initEGLDisplay st e else (st, none)
  match step0 with
  | (st1, some err) => (st1, some err)
  | (st1, none) =>
    if ¬ e.chooseConfig RGB_888 then
      (st1, some (("EGL choose RGB_888 config failed").toList))
    else if e.numConfigs ≤ 0 then
      (st1, some (("EGL no config found").toList))
    else if e.setBuffersGeometry e.nativeVisualFormat ≠ 0 then
      (st1, some (("EGL set buffers geometry failed").toList))
    else
      let st2 : EGLState := { st1 with surface := e.createWindowSurface }
      if st2.surface = 0 then
        (st2, some (("EGL create surface failed").toList))
      else
        let context := e.createContext contextAttribs
        if e.makeCurrent st2.surface context = false then
          (st2, some (("eglMakeCurrent failed").toList))
        else (st2, none)

/-- `destroyEGLSurface` (android.c:190-195). -/
def destroyEGLSurface (destroyOk : Bool) : Option (List Char) :=
  if ¬ destroyOk then some (("EGL destroy surface failed").toList) else none

/-- `JVMEnsureAttached` (android.c:230-245): `NULL` when
`clipboardFailed` is set, otherwise the env from `GetEnv` or, failing
that, from `AttachCurrentThread`; `NULL` when both fail. The returned
`JNIEnv*` is abstracted to `Unit`. -/
def JVMEnsureAttached (s : GlobalState) (getEnvOk attachOk : Bool) : Option Unit :=
  if s.clipboardFailed ≠ 0 then none
  else if getEnvOk then some ()
  else if attachOk then some ()
  else none

/-- Records a failure in the clipboard machinery: sets
`clipboardFailed = 1` and writes the prefixed exception message into
`clipboardLastError` (the pattern repeated all over android.c:344-530). -/
def clipFail (s : GlobalState) (pre msg : List Char) : GlobalState :=
  { s with clipboardFailed := 1,
           clipboardLastError := copyExceptionMessage pre msg 512 s.clipboardLastError }

/-- Writes a prefixed exception message into `clipboardLastError`
without touching `clipboardFailed` (the pattern of android.c:270-340). -/
def clipCapture (s : GlobalState) (pre msg : List Char) : GlobalState :=
  { s with clipboardLastError := copyExceptionMessage pre msg 512 s.clipboardLastError }

/-- Records a failure in the browser machinery: sets `browserFailed = 1`
and writes the prefixed exception message into `browserLastError`
(android.c:545-609). -/
def browserFail (s : GlobalState) (pre msg : List Char) : GlobalState :=
  { s with browserFailed := 1,
           browserLastError := copyExceptionMessage pre msg 512 s.browserLastError }

/-- Writes a prefixed exception message into `browserLastError` without
touching `browserFailed` (android.c:611-641). -/
def browserCapture (s : GlobalState) (pre msg : List Char) : GlobalState :=
  { s with browserLastError := copyExceptionMessage pre msg 512 s.browserLastError }

/-- `getLastClipboardError` (android.c:266-268). -/
def getLastClipboardError (s : GlobalState) : Nat → Char := s.clipboardLastError

/-- `getLastBrowserError` (android.c:643-645). -/
def getLastBrowserError (s : GlobalState) : Nat → Char := s.browserLastError

/-- The `const char *` value returned by `getClipboardString`: either a
crash (the `NULL` `JNIEnv*` from `JVMEnsureAttached` gets dereferenced),
or a pointer that is `NULL` (`CRet.ret none`) or a string. -/
inductive CRet where
  | crash
  | ret (p : Option (List Char))
  deriving DecidableEq, Repr

/-- Termination mode of a modelled `void` function: normal return or a
crash from dereferencing the `NULL` `JNIEnv*`. -/
inductive Exec where
  | normal
  | crash
  deriving DecidableEq, Repr

/-- Oracle for the JNI calls done by `getClipboardString`. -/
structure ClipReadEnv where
  getEnvOk : Bool
  attachOk : Bool
  callGetPrimaryClip : Option Nat
  callGetItemAt : Option Nat
  callGetText : Option Nat
  callToString : Option Nat
  getStringUTFChars : Option (List Char)
  excMsg : List Char

/-- `getClipboardString` (android.c:270-301): `""` at once when
`clipboardFailed` is set; otherwise four checked object-returning calls,
each `NULL` result captured into `clipboardLastError` with its own
prefix and answered with `""`; finally the unchecked
`GetStringUTFChars` result is returned as is. -/
def getClipboardString (s : GlobalState) (e : ClipReadEnv) : GlobalState × List JAct × CRet :=
  if s.clipboardFailed ≠ 0 then (s, [], CRet.ret (some []))
  else
    match JVMEnsureAttached s e.getEnvOk e.attachOk with
    | none => (s, [JAct.jniCall ("JVMEnsureAttached")], CRet.crash)
    | some _ =>
      let tr := [JAct.jniCall ("JVMEnsureAttached"),
                 JAct.jniCall ("CallObjectMethod getPrimaryClip")]
      match e.callGetPrimaryClip with
      | none =>
        (clipCapture s (("Error getting clipboard data").toList) e.excMsg,
         tr ++ excTr, CRet.ret (some []))
      | some _ =>
      let tr := tr ++ [JAct.jniCall ("CallObjectMethod getItemAt")]
      match e.callGetItemAt with
      | none =>
        (clipCapture s (("Error getting first item of clipboard").toList) e.excMsg,
         tr ++ excTr, CRet.ret (some []))
      | some _ =>
      let tr := tr ++ [JAct.jniCall ("CallObjectMethod getText")]
      match e.callGetText with
      | none =>
        (clipCapture s (("Looks like no text is copied right now").toList) e.excMsg,
         tr ++ excTr, CRet.ret (some []))
      | some _ =>
      let tr := tr ++ [JAct.jniCall ("CallObjectMethod toString")]
      match e.callToString with
      | none =>
        (clipCapture s (("CharSequence could not be converted to string").toList) e.excMsg,
         tr ++ excTr, CRet.ret (some []))
      | some _ =>
        (s, tr ++ [JAct.jniCall ("GetStringUTFChars")], CRet.ret e.getStringUTFChars)

/-- Oracle for the JNI calls done by `setClipboardString`. -/
structure ClipWriteEnv where
  getEnvOk : Bool
  attachOk : Bool
  newTextData : Option Nat
  findStringClass : Option Nat
  newMimeString : Option Nat
  newObjectArray : Option Nat
  newClipDescription : Option Nat
  newInputString : Option Nat
  newClipDataItem : Option Nat
  newClipData : Option Nat
  excMsg : List Char

/-- `setClipboardString` (android.c:303-340): returns at once when
`clipboardFailed` is set; otherwise builds the mime-type array, clip
description, clip item and clip data (each checked, a `NULL` captured
into `clipboardLastError`) and calls `setPrimaryClip` (unchecked). -/
def setClipboardString (s : GlobalState) (e : ClipWriteEnv) (_input : List Char) :
    GlobalState × List JAct × Exec :=
  if s.clipboardFailed ≠ 0 then (s, [], Exec.normal)
  else
    match JVMEnsureAttached s e.getEnvOk e.attachOk with
    | none => (s, [JAct.jniCall ("JVMEnsureAttached")], Exec.crash)
    | some _ =>
      let tr := [JAct.jniCall ("JVMEnsureAttached"),
                 JAct.jniCall ("NewStringUTF Text Data"),
                 JAct.jniCall ("FindClass java/lang/String"),
                 JAct.jniCall ("NewStringUTF text/plain"),
                 JAct.jniCall ("NewObjectArray")]
      match e.newObjectArray with
      | none =>
        (clipCapture s (("Failed to create mime type string array").toList) e.excMsg,
         tr ++ excTr, Exec.normal)
      | some _ =>
      let tr := tr ++ [JAct.jniCall ("NewObject ClipDescription")]
      match e.newClipDescription with
      | none =>
        (clipCapture s (("Failed to create clip description").toList) e.excMsg,
         tr ++ excTr, Exec.normal)
      | some _ =>
      let tr := tr ++ [JAct.jniCall ("NewStringUTF input"),
                       JAct.jniCall ("NewObject ClipData.Item")]
      match e.newClipDataItem with
      | none =>
        (clipCapture s (("Failed to create clip data item").toList) e.excMsg,
         tr ++ excTr, Exec.normal)
      | some _ =>
      let tr := tr ++ [JAct.jniCall ("NewObject ClipData")]
      match e.newClipData with
      | none =>
        (clipCapture s (("Failed to create clip data").toList) e.excMsg,
         tr ++ excTr, Exec.normal)
      | some _ =>
        (s, tr ++ [JAct.jniCall ("CallVoidMethod setPrimaryClip")], Exec.normal)

/-- Oracle for the JNI calls done by `setupClipboardManager`. The
superclass walk of android.c:366-378 is modelled by `superChain`, the
finite list of successive superclasses of the starting class
(`GetSuperclass` yields its elements in order and then `NULL`), and
`findGetAppCtx`, the per-class `GetMethodID` result for
`getApplicationContext`. -/
structure ClipSetupEnv where
  getObjectClassCtx : Option Nat
  findGetAppCtx : Nat → Option Nat
  superChain : List Nat
  callGetAppCtx : Option Nat
  newGlobalRef : Nat → Nat
  getObjectClassAppCtx : Option Nat
  findContextClass : Option Nat
  getClipboardServiceField : Option Nat
  getClipboardServiceName : Option Nat
  findGetSystemService : Option Nat
  callGetSystemService : Option Nat
  findClipboardManagerClass : Option Nat
  findSetPrimaryClip : Option Nat
  findGetPrimaryClip : Option Nat
  findClipDataClass : Option Nat
  findGetItemAt : Option Nat
  findClipDataItemClass : Option Nat
  findGetText : Option Nat
  findCharSequenceClass : Option Nat
  findToString : Option Nat
  findClipDataItemCtor : Option Nat
  findClipDataCtor : Option Nat
  findClipDescriptionClass : Option Nat
  findClipDescriptionCtor : Option Nat
  excMsg : List Char

/-- The `while (getApplicationContextFunc == NULL)` loop of
android.c:366-378: looks `getApplicationContext` up on the current
class, on failure moves to the superclass; `none` models the loop
hitting a `NULL` superclass. On success it yields the method id and the
class on which it was found (the value left in `contextClass`). -/
def findAppCtxLoop (find : Nat → Option Nat) (cls : Nat) (chain : List Nat) :
    Option (Nat × Nat) :=
  match find cls with
  | some m => some (m, cls)
  | none =>
    match chain with
    | [] => none
    | c :: rest => findAppCtxLoop find c rest

/-- `setupClipboardManager` (android.c:344-530): early return when the
manager is already cached or a failure was recorded; otherwise a linear
sequence of lookups, each failure setting `clipboardFailed` and
capturing the exception message. Note two faithful source quirks: the
check after `FindClass("android/content/Context")` tests `context`
instead of the just-fetched class (android.c:396-397), and on success
only byte 0 of `clipboardLastError` is cleared (android.c:527). -/
def setupClipboardManager (act : Activity) (s : GlobalState) (e : ClipSetupEnv) :
    GlobalState × List JAct :=
  if s.clipboardFailed = 0 ∧ s.clipboardManager ≠ none then (s, [])
  else if s.clipboardFailed ≠ 0 then (s, [])
  else
    let context := act.clazz
    let tr := [JAct.jniCall ("GetObjectClass context")]
    let s := { s with contextClass := e.getObjectClassCtx }
    match e.getObjectClassCtx with
    | none => (clipFail s (("failed to get context class").toList) e.excMsg, tr ++ excTr)
    | some ctxCls =>
    let tr := tr ++ [JAct.jniCall ("find getApplicationContext")]
    match findAppCtxLoop e.findGetAppCtx ctxCls e.superChain with
    | none =>
      let s := { s with contextClass := none }
      (clipFail s (("failed to get superclass").toList) e.excMsg, tr ++ excTr)
    | some (gacFunc, foundCls) =>
    let _ := gacFunc
    let s := { s with contextClass := some foundCls }
    let tr := tr ++ [JAct.jniCall ("CallObjectMethod getApplicationContext")]
    let s := { s with applicationContext := e.callGetAppCtx }
    match e.callGetAppCtx with
    | none => (clipFail s (("failed to call getApplicationContext()").toList) e.excMsg, tr ++ excTr)
    | some appCtx =>
    let s := { s with applicationContext := some (e.newGlobalRef appCtx) }
    let tr := tr ++ [JAct.jniCall ("GetObjectClass applicationContext")]
    let s := { s with contextClass := e.getObjectClassAppCtx }
    match e.getObjectClassAppCtx with
    | none => (clipFail s (("failed to get applicationcontext class").toList) e.excMsg, tr ++ excTr)
    | some appCtxCls =>
    let s := { s with contextClass := some (e.newGlobalRef appCtxCls) }
    let tr := tr ++ [JAct.jniCall ("FindClass android/content/Context")]
    -- the source checks `context` here, not the class just fetched (android.c:397)
    if context = none then
      (clipFail s (("failed to find context class").toList) e.excMsg, tr ++ excTr)
    else
    let tr := tr ++ [JAct.jniCall ("GetStaticFieldID CLIPBOARD_SERVICE")]
    match e.getClipboardServiceField with
    | none => (clipFail s (("failed to find clipboardServiceField").toList) e.excMsg, tr ++ excTr)
    | some _ =>
    let tr := tr ++ [JAct.jniCall ("GetStaticObjectField CLIPBOARD_SERVICE")]
    match e.getClipboardServiceName with
    | none => (clipFail s (("failed to read clipboardServiceField").toList) e.excMsg, tr ++ excTr)
    | some _ =>
    let tr := tr ++ [JAct.jniCall ("find getSystemService")]
    match e.findGetSystemService with
    | none => (clipFail s (("failed to find getSystemService method").toList) e.excMsg, tr ++ excTr)
    | some _ =>
    let tr := tr ++ [JAct.jniCall ("CallObjectMethod getSystemService")]
    match e.callGetSystemService with
    | none => (clipFail s (("failed to get clipboard service").toList) e.excMsg, tr ++ excTr)
    | some localCM =>
    let tr := tr ++ [JAct.jniCall ("FindClass android/content/ClipboardManager")]
    match e.findClipboardManagerClass with
    | none => (clipFail s (("failed to get class of clipboardmanager").toList) e.excMsg, tr ++ excTr)
    | some _ =>
    let tr := tr ++ [JAct.jniCall ("find setPrimaryClip")]
    let s := { s with setPrimaryClipFunc := e.findSetPrimaryClip }
    match e.findSetPrimaryClip with
    | none => (clipFail s (("failed to find setPrimaryClip method").toList) e.excMsg, tr ++ excTr)
    | some _ =>
    let tr := tr ++ [JAct.jniCall ("find getPrimaryClip")]
    let s := { s with getPrimaryClipFunc := e.findGetPrimaryClip }
    match e.findGetPrimaryClip with
    | none => (clipFail s (("failed to find getPrimaryClip method").toList) e.excMsg, tr ++ excTr)
    | some _ =>
    let tr := tr ++ [JAct.jniCall ("FindClass android/content/ClipData")]
    let s := { s with clipDataClass := e.findClipDataClass }
    match e.findClipDataClass with
    | none => (clipFail s (("failed to find ClipData class").toList) e.excMsg, tr ++ excTr)
    | some cdc =>
    let s := { s with clipDataClass := some (e.newGlobalRef cdc) }
    let tr := tr ++ [JAct.jniCall ("find getItemAt")]
    let s := { s with getItemAtFunc := e.findGetItemAt }
    match e.findGetItemAt with
    | none => (clipFail s (("failed to find getItemAt method").toList) e.excMsg, tr ++ excTr)
    | some _ =>
    let tr := tr ++ [JAct.jniCall ("FindClass android/content/ClipData$Item")]
    let s := { s with clipDataItemClass := e.findClipDataItemClass }
    match e.findClipDataItemClass with
    | none => (clipFail s (("failed to find ClipData.Item class").toList) e.excMsg, tr ++ excTr)
    | some cdic =>
    let s := { s with clipDataItemClass := some (e.newGlobalRef cdic) }
    let tr := tr ++ [JAct.jniCall ("find getText")]
    let s := { s with getTextFunc := e.findGetText }
    match e.findGetText with
    | none => (clipFail s (("failed to find getText method").toList) e.excMsg, tr ++ excTr)
    | some _ =>
    let tr := tr ++ [JAct.jniCall ("FindClass java/lang/CharSequence")]
    match e.findCharSequenceClass with
    | none => (clipFail s (("failed to find CharSequence class").toList) e.excMsg, tr ++ excTr)
    | some _ =>
    let tr := tr ++ [JAct.jniCall ("find toString")]
    let s := { s with charSequencetoString := e.findToString }
    match e.findToString with
    | none => (clipFail s (("failed to find toString method").toList) e.excMsg, tr ++ excTr)
    | some _ =>
    let tr := tr ++ [JAct.jniCall ("find ClipData.Item constructor")]
    let s := { s with clipDataItemConstructor := e.findClipDataItemCtor }
    match e.findClipDataItemCtor with
    | none => (clipFail s (("failed to find ClipDataItem constructor").toList) e.excMsg, tr ++ excTr)
    | some _ =>
    let tr := tr ++ [JAct.jniCall ("find ClipData constructor")]
    let s := { s with clipDataConstructor := e.findClipDataCtor }
    match e.findClipDataCtor with
    | none => (clipFail s (("failed to find ClipData constructor").toList) e.excMsg, tr ++ excTr)
    | some _ =>
    let tr := tr ++ [JAct.jniCall ("FindClass android/content/ClipDescription")]
    let s := { s with clipDescriptionClass := e.findClipDescriptionClass }
    match e.findClipDescriptionClass with
    | none => (clipFail s (("failed to find ClipDescription class").toList) e.excMsg, tr ++ excTr)
    | some cdsc =>
    let s := { s with clipDescriptionClass := some (e.newGlobalRef cdsc) }
    let tr := tr ++ [JAct.jniCall ("find ClipDescription constructor")]
    let s := { s with clipDescriptionConstructor := e.findClipDescriptionCtor }
    match e.findClipDescriptionCtor with
    | none => (clipFail s (("failed to find ClipDescription constructor").toList) e.excMsg, tr ++ excTr)
    | some _ =>
      ({ s with clipboardManager := some (e.newGlobalRef localCM),
                clipboardLastError :=
                  fun i => if i = 0 then nulChar else s.clipboardLastError i },
       tr ++ [JAct.jniCall ("NewGlobalRef clipboardManager")])

/-- Oracle for the JNI calls done by `setupBrowser`. -/
structure BrowserEnv where
  findIntentClass : Option Nat
  newGlobalRef : Nat → Nat
  findIntentCtor : Option Nat
  findUriClass : Option Nat
  findUriParse : Option Nat
  findActionViewField : Option Nat
  getActionViewValue : Option Nat
  findStartActivity : Option Nat
  excMsg : List Char

/-- `setupBrowser` (android.c:545-609): early return when initialisation
already completed or failed; otherwise the Intent class and constructor,
Uri class, static `Uri.parse`, `Intent.ACTION_VIEW` field and value, and
the `startActivity` method are looked up in sequence. Faithful source
quirk: after assigning `startActivityFunc` the code re-tests
`intentConstructor` (android.c:601-602), so a failed `startActivity`
lookup is never detected. -/
def setupBrowser (s : GlobalState) (e : BrowserEnv) : GlobalState × List JAct :=
  if s.browserFailed = 0 ∧ s.browserInitCompleted ≠ 0 then (s, [])
  else if s.browserFailed ≠ 0 then (s, [])
  else
    let tr := [JAct.jniCall ("FindClass android/content/Intent")]
    let s := { s with intentClass := e.findIntentClass }
    match e.findIntentClass with
    | none => (browserFail s (("failed to find Intent class").toList) e.excMsg, tr ++ excTr)
    | some ic =>
    let s := { s with intentClass := some (e.newGlobalRef ic) }
    let tr := tr ++ [JAct.jniCall ("find Intent constructor")]
    let s := { s with intentConstructor := e.findIntentCtor }
    match e.findIntentCtor with
    | none => (browserFail s (("failed to find Intent constructor").toList) e.excMsg, tr ++ excTr)
    | some _ =>
    let tr := tr ++ [JAct.jniCall ("FindClass android/net/Uri")]
    let s := { s with uriClass := e.findUriClass }
    match e.findUriClass with
    | none => (browserFail s (("failed to find Uri class").toList) e.excMsg, tr ++ excTr)
    | some uc =>
    let s := { s with uriClass := some (e.newGlobalRef uc) }
    let tr := tr ++ [JAct.jniCall ("find static Uri.parse")]
    let s := { s with uriParseFunc := e.findUriParse }
    match e.findUriParse with
    | none => (browserFail s (("failed to find static method Uri.parse").toList) e.excMsg, tr ++ excTr)
    | some _ =>
    let tr := tr ++ [JAct.jniCall ("GetStaticFieldID ACTION_VIEW")]
    match e.findActionViewField with
    | none => (browserFail s (("failed to find Intent.ACTION_VIEW").toList) e.excMsg, tr ++ excTr)
    | some _ =>
    let tr := tr ++ [JAct.jniCall ("GetStaticObjectField ACTION_VIEW")]
    let s := { s with actionViewString := e.getActionViewValue }
    match e.getActionViewValue with
    | none => (browserFail s (("failed to read Intent.ACTION_VIEW").toList) e.excMsg, tr ++ excTr)
    | some av =>
    let s := { s with actionViewString := some (e.newGlobalRef av) }
    let tr := tr ++ [JAct.jniCall ("find startActivity")]
    let s := { s with startActivityFunc := e.findStartActivity }
    -- the source re-tests intentConstructor here, not startActivityFunc (android.c:602)
    if s.intentConstructor = none then
      (browserFail s (("failed to find startActivity function").toList) e.excMsg, tr ++ excTr)
    else
      ({ s with browserInitCompleted := 1 }, tr)

/-- Oracle for the JNI calls done by `openUrl`. -/
structure OpenUrlEnv where
  getEnvOk : Bool
  attachOk : Bool
  newStringUTF : Option Nat
  callUriParse : Option Nat
  newIntent : Option Nat
  startActivityThrew : Bool
  excMsg : List Char

/-- `openUrl` (android.c:611-641): returns at once when `browserFailed`
is set; otherwise makes the url jstring, parses it into a Uri, builds
the `ACTION_VIEW` intent (each checked, a `NULL` captured into
`browserLastError`) and calls `startActivity`, capturing a thrown
exception afterwards. -/
def openUrl (s : GlobalState) (e : OpenUrlEnv) (_url : List Char) :
    GlobalState × List JAct × Exec :=
  if s.browserFailed ≠ 0 then (s, [], Exec.normal)
  else
    match JVMEnsureAttached s e.getEnvOk e.attachOk with
    | none => (s, [JAct.jniCall ("JVMEnsureAttached")], Exec.crash)
    | some _ =>
      let tr := [JAct.jniCall ("JVMEnsureAttached"), JAct.jniCall ("NewStringUTF url")]
      match e.newStringUTF with
      | none =>
        (browserCapture s (("Failed to create jstring for url").toList) e.excMsg,
         tr ++ excTr, Exec.normal)
      | some _ =>
      let tr := tr ++ [JAct.jniCall ("CallStaticObjectMethod Uri.parse")]
      match e.callUriParse with
      | none =>
        (browserCapture s (("Uri.parse call failed").toList) e.excMsg,
         tr ++ excTr, Exec.normal)
      | some _ =>
      let tr := tr ++ [JAct.jniCall ("NewObject Intent")]
      match e.newIntent with
      | none =>
        (browserCapture s (("Failed to create intent").toList) e.excMsg,
         tr ++ excTr, Exec.normal)
      | some _ =>
      let tr := tr ++ [JAct.jniCall ("CallVoidMethod startActivity")]
      if e.startActivityThrew then
        (browserCapture s (("Failed to start activity:").toList) e.excMsg,
         tr ++ excTr, Exec.normal)
      else (s, tr, Exec.normal)

/-- An all-NUL buffer, the initial content of the two 512-byte error
buffers (android.c:227, 544). -/
def zeroBuf : Nat → Char := fun _ => nulChar

/-- The global state at process start: `main_running = 0`, every cached
handle `NULL`, both failure flags `0`, both error buffers zeroed. -/
def sFresh : GlobalState :=
  { main_running := 0, current_class := none, key_rune_method := none,
    contextClass := none, applicationContext := none, clipboardManager := none,
    clipDataClass := none, clipDataConstructor := none, clipDataItemClass := none,
    clipDataItemConstructor := none, clipDescriptionClass := none,
    clipDescriptionConstructor := none, getPrimaryClipFunc := none,
    getItemAtFunc := none, getTextFunc := none, charSequencetoString := none,
    setPrimaryClipFunc := none, clipboardFailed := 0, clipboardLastError := zeroBuf,
    intentClass := none, intentConstructor := none, uriClass := none,
    uriParseFunc := none, startActivityFunc := none, actionViewString := none,
    browserFailed := 0, browserInitCompleted := 0, browserLastError := zeroBuf }

/-- An activity whose `clazz` reference is a valid (non-`NULL`) object. -/
def act1 : Activity := ⟨some 1⟩

/-- A sample oracle for `ANativeActivity_onCreate` in which every lookup
succeeds. -/
def eOn1 : OnCreateEnv :=
  { objectClass := 1, globalRef := fun n => n, findGetRune := some 2,
    findGetTmpdir := some 3, tmpdir := ("/data/tmp").toList,
    setenvOk := true, mainPC := 4 }

/-- A sample oracle for `setupClipboardManager` in which every lookup
succeeds. -/
def eClipSetup1 : ClipSetupEnv :=
  { getObjectClassCtx := some 2, findGetAppCtx := fun _ => some 3,
    superChain := [], callGetAppCtx := some 4, newGlobalRef := fun n => n,
    getObjectClassAppCtx := some 5, findContextClass := some 6,
    getClipboardServiceField := some 7, getClipboardServiceName := some 8,
    findGetSystemService := some 9, callGetSystemService := some 10,
    findClipboardManagerClass := some 11, findSetPrimaryClip := some 12,
    findGetPrimaryClip := some 13, findClipDataClass := some 14,
    findGetItemAt := some 15, findClipDataItemClass := some 16,
    findGetText := some 17, findCharSequenceClass := some 18,
    findToString := some 19, findClipDataItemCtor := some 20,
    findClipDataCtor := some 21, findClipDescriptionClass := some 22,
    findClipDescriptionCtor := some 23, excMsg := [] }

/-- A sample oracle for `setupBrowser` in which every lookup succeeds. -/
def eBrowser1 : BrowserEnv :=
  { findIntentClass := some 2, newGlobalRef := fun n => n,
    findIntentCtor := some 3, findUriClass := some 4, findUriParse := some 5,
    findActionViewField := some 6, getActionViewValue := some 7,
    findStartActivity := some 8, excMsg := [] }

/-- The oracle exhibiting the `setupBrowser` bug: every lookup succeeds
except `GetMethodID` for `startActivity`, which returns `NULL`. -/
def eBrowserBug : BrowserEnv :=
  { eBrowser1 with findStartActivity := none, excMsg := ("no startActivity").toList }

/-- A sample oracle for `getClipboardString` in which every JNI call
succeeds and the clipboard holds `"hello"`. -/
def eRead1 : ClipReadEnv :=
  { getEnvOk := true, attachOk := true, callGetPrimaryClip := some 2,
    callGetItemAt := some 3, callGetText := some 4, callToString := some 5,
    getStringUTFChars := some (("hello").toList), excMsg := ("boom").toList }

/-- The oracle exhibiting the unchecked final step of
`getClipboardString`: the four object-returning calls succeed but
`GetStringUTFChars` returns `NULL`. -/
def eReadNullUTF : ClipReadEnv := { eRead1 with getStringUTFChars := none }

/-- A sample oracle for `setClipboardString` in which every JNI call
succeeds. -/
def eWrite1 : ClipWriteEnv :=
  { getEnvOk := true, attachOk := true, newTextData := some 2,
    findStringClass := some 3, newMimeString := some 4, newObjectArray := some 5,
    newClipDescription := some 6, newInputString := some 7,
    newClipDataItem := some 8, newClipData := some 9, excMsg := ("boom").toList }

/-- A sample oracle for `openUrl` in which every JNI call succeeds. -/
def eUrl1 : OpenUrlEnv :=
  { getEnvOk := true, attachOk := true, newStringUTF := some 2,
    callUriParse := some 3, newIntent := some 4, startActivityThrew := false,
    excMsg := ("boom").toList }

/-- `padTrunc` distributes over the concatenation written by the two
`strncpy` calls of `copyExceptionMessage`. -/
theorem padTrunc_append (pre msg : List Char) (n : Nat) (h : pre.length ≤ n) :
    padTrunc (pre ++ msg) n = pre ++ padTrunc msg (n - pre.length) := by
  unfold padTrunc
  rw [List.take_append_eq_append_take, List.take_of_length_le h, List.length_append,
    List.append_assoc]
  congr 3
  omega

/-- Pointwise reading of `copyExceptionMessage`. -/
theorem copyExceptionMessage_apply (pre msg : List Char) (maxSize : Nat)
    (buf : Nat → Char) (i : Nat) :
    copyExceptionMessage pre msg maxSize buf i =
      if strnlen pre maxSize < maxSize then
        cstrncpy (cstrncpy buf 0 pre maxSize) (strnlen pre maxSize) msg
          (maxSize - strnlen pre maxSize) i
      else cstrncpy buf 0 pre maxSize i := by
  unfold copyExceptionMessage
  by_cases h : strnlen pre maxSize < maxSize
  · simp only [if_pos h]
  · simp only [if_neg h]

/-- `copyExceptionMessage` never writes at or beyond `maxSize`. -/
theorem copyExceptionMessage_unchanged (pre msg : List Char) (maxSize : Nat)
    (buf : Nat → Char) (i : Nat) (h : maxSize ≤ i) :
    copyExceptionMessage pre msg maxSize buf i = buf i := by
  rw [copyExceptionMessage_apply]
  simp only [cstrncpy, strnlen]
  split_ifs <;> first | rfl | (exfalso; omega)

/-- When the prefix is shorter than `maxSize`, the first `maxSize` bytes
after `copyExceptionMessage` are the prefix followed by the message,
truncated to `maxSize` bytes and NUL-padded. -/
theorem copyExceptionMessage_content (pre msg : List Char) (maxSize : Nat)
    (buf : Nat → Char) (hpre : pre.length < maxSize) (i : Nat) (hi : i < maxSize) :
    copyExceptionMessage pre msg maxSize buf i =
      (padTrunc (pre ++ msg) maxSize).getD i nulChar := by
  have hmin : strnlen pre maxSize = pre.length := by unfold strnlen; omega
  rw [copyExceptionMessage_apply, hmin, if_pos hpre,
    padTrunc_append pre msg maxSize hpre.le]
  simp only [cstrncpy]
  by_cases hge : pre.length ≤ i
  · rw [if_pos ⟨hge, by omega⟩, List.getD_append_right _ _ _ _ hge]
  · have hlt : i < pre.length := by omega
    rw [if_neg (by omega), if_pos ⟨Nat.zero_le i, by omega⟩, Nat.sub_zero,
      List.getD_append _ _ _ _ hlt]
    unfold padTrunc
    rw [List.take_of_length_le hpre.le, List.getD_append _ _ _ _ hlt]

/-- No path of `setupBrowser` ever writes `clipboardFailed`. -/
theorem setupBrowser_clipboardFailed (s : GlobalState) (e : BrowserEnv) :
    (setupBrowser s e).1.clipboardFailed = s.clipboardFailed := by
  unfold setupBrowser
  dsimp only
  repeat' split
  all_goals rfl

/-- No path of `setupClipboardManager` ever writes `browserFailed`. -/
theorem setupClipboardManager_browserFailed (act : Activity) (s : GlobalState)
    (e : ClipSetupEnv) :
    (setupClipboardManager act s e).1.browserFailed = s.browserFailed := by
  unfold setupClipboardManager
  dsimp only
  repeat' split
  all_goals rfl

/-- No path of `getClipboardString` ever writes `browserFailed`. -/
theorem getClipboardString_browserFailed (s : GlobalState) (e : ClipReadEnv) :
    (getClipboardString s e).1.browserFailed = s.browserFailed := by
  unfold getClipboardString
  dsimp only
  repeat' split
  all_goals rfl

/-- No path of `setClipboardString` ever writes `browserFailed`. -/
theorem setClipboardString_browserFailed (s : GlobalState) (e : ClipWriteEnv)
    (input : List Char) :
    (setClipboardString s e input).1.browserFailed = s.browserFailed := by
  unfold setClipboardString
  dsimp only
  repeat' split
  all_goals rfl

/-- No path of `openUrl` ever writes `clipboardFailed`. -/
theorem openUrl_clipboardFailed (s : GlobalState) (e : OpenUrlEnv) (url : List Char) :
    (openUrl s e url).1.clipboardFailed = s.clipboardFailed := by
  unfold openUrl
  dsimp only
  repeat' split
  all_goals rfl

/-- `ANativeActivity_onCreate` never writes either failure flag. -/
theorem onCreate_flags (s : GlobalState) (e : OnCreateEnv) :
    (ANativeActivity_onCreate s e).1.clipboardFailed = s.clipboardFailed ∧
    (ANativeActivity_onCreate s e).1.browserFailed = s.browserFailed := by
  unfold ANativeActivity_onCreate
  dsimp only
  constructor <;> (repeat' split) <;> rfl

/-- C6: the EGL configuration requested by `createEGLSurface` is fixed:
`RGB_888` asks for renderable type `EGL_OPENGL_ES2_BIT`, a window
surface, 8-bit blue, green and red channels, a 16-bit depth buffer and
no config caveat, and is `EGL_NONE`-terminated; the attribute list the
source passes to `eglCreateContext` requests client version 2. -/
theorem c6_RGB888_es2_depth16 :
    parseAttribs RGB_888 =
      [(EGL_RENDERABLE_TYPE, EGL_OPENGL_ES2_BIT), (EGL_SURFACE_TYPE, EGL_WINDOW_BIT),
       (EGL_BLUE_SIZE, 8), (EGL_GREEN_SIZE, 8), (EGL_RED_SIZE, 8),
       (EGL_DEPTH_SIZE, 16), (EGL_CONFIG_CAVEAT, EGL_NONE)] ∧
    RGB_888.getLast? = some EGL_NONE ∧
    parseAttribs contextAttribs = [(EGL_CONTEXT_CLIENT_VERSION, 2)] := by
  refine ⟨?_, ?_, ?_⟩ <;> decide

/-- An EGL state whose display is already initialised. -/
def stDisp1 : EGLState := { display := 1, surface := 0 }

/-- An EGL oracle in which every call succeeds except `eglCreateContext`,
which returns `EGL_NO_CONTEXT` (`0`), while `eglMakeCurrent` succeeds. -/
def eEGLBugCtx : EGLEnv :=
  { getDisplay := 1, initOk := true, chooseConfig := fun _ => true,
    numConfigs := 1, nativeVisualFormat := 5, setBuffersGeometry := fun _ => 0,
    createWindowSurface := 2, createContext := fun _ => 0,
    makeCurrent := fun _ _ => true }

/-- C2 counterexample: context creation — one of the calls in the claim's
sequence — fails (`eglCreateContext` yields `EGL_NO_CONTEXT`), yet
`createEGLSurface` returns `NULL` (success), because the source never
checks the result of `eglCreateContext`; so the function is not a chain
in which every configuration call is followed by a failure check. -/
theorem c2_counterexample :
    eEGLBugCtx.createContext contextAttribs = 0 ∧
    (createEGLSurface stDisp1 eEGLBugCtx).2 = none := by
  exact ⟨rfl, rfl⟩

/-- C2 as amended: `createEGLSurface` returns `NULL` exactly when the
*checked* calls all succeed — display initialisation (only when the
display is not yet initialised), config choice with a positive config
count, buffer-geometry setup, window-surface creation, and making the
context current. The `eglCreateContext` call has no check of its own;
its failure surfaces only if the subsequent `eglMakeCurrent` fails. -/
theorem c2_amended_checked_calls (st : EGLState) (e : EGLEnv) :
    (createEGLSurface st e).2 = none ↔
      ((st.display = 0 → e.initOk = true) ∧ e.chooseConfig RGB_888 = true ∧
       0 < e.numConfigs ∧ e.setBuffersGeometry e.nativeVisualFormat = 0 ∧
       e.createWindowSurface ≠ 0 ∧
       e.makeCurrent e.createWindowSurface (e.createContext contextAttribs) = true) := by
  unfold createEGLSurface initEGLDisplay
  by_cases h0 : st.display = 0 <;> by_cases h1 : e.initOk = true <;>
    simp [h0, h1] <;> split_ifs <;> simp_all

/-- C10: for every prefix and `maxSize`, `copyExceptionMessage` leaves
every byte at offset `≥ maxSize` untouched; when the prefix is shorter
than `maxSize` the first `maxSize` bytes become the prefix immediately
followed by the exception message, truncated to `maxSize` bytes (and
NUL-padded); and the pending exception is always cleared. -/
theorem c10_copyExceptionMessage_truncation (pre msg : List Char) (maxSize : Nat)
    (buf : Nat → Char) (xe : ExcEnv) :
    (∀ i, maxSize ≤ i → copyExceptionMessage pre msg maxSize buf i = buf i) ∧
    (pre.length < maxSize → ∀ i, i < maxSize →
      copyExceptionMessage pre msg maxSize buf i =
        (padTrunc (pre ++ msg) maxSize).getD i nulChar) ∧
    (copyExceptionMessageFull xe msg pre maxSize buf).1.pending = none :=
  ⟨fun i h => copyExceptionMessage_unchanged pre msg maxSize buf i h,
   fun hp i hi => copyExceptionMessage_content pre msg maxSize buf hp i hi, rfl⟩

/-- C10 witness: concrete evaluation at prefix `"Er"`, message `"xyz"`,
`maxSize = 5`, on a buffer of `'a'` bytes. -/
theorem c10_witness :
    (("Er").toList).length < 5 ∧
    copyExceptionMessage (("Er").toList) (("xyz").toList) 5 (fun _ => 'a') 9 = 'a' ∧
    copyExceptionMessage (("Er").toList) (("xyz").toList) 5 (fun _ => 'a') 3 =
      (padTrunc ((("Er").toList) ++ (("xyz").toList)) 5).getD 3 nulChar ∧
    (copyExceptionMessageFull ⟨some 7⟩ (("xyz").toList) (("Er").toList) 5
      (fun _ => 'a')).1.pending = none := by
  refine ⟨by decide, ?_, ?_, ?_⟩
  · exact (c10_copyExceptionMessage_truncation (("Er").toList) (("xyz").toList) 5
      (fun _ => 'a') ⟨some 7⟩).1 9 (by decide)
  · exact (c10_copyExceptionMessage_truncation (("Er").toList) (("xyz").toList) 5
      (fun _ => 'a') ⟨some 7⟩).2.1 (by decide) 3 (by decide)
  · exact (c10_copyExceptionMessage_truncation (("Er").toList) (("xyz").toList) 5
      (fun _ => 'a') ⟨some 7⟩).2.2

/-- C4: when `main_running` is still `0`, `ANativeActivity_onCreate`
caches the activity's class (positions 0-1 of the trace and the
`current_class` global), looks up `getRune` (position 2), sets `TMPDIR`
from the activity's `getTmpdir()` result (positions 4-6), and only then
resolves `main.main` via `dlsym` (position 7) and starts it by calling
`callMain` (position 8). -/
theorem c4_onCreate_first_run (s : GlobalState) (e : OnCreateEnv)
    (h : s.main_running = 0) :
    (ANativeActivity_onCreate s e).2 =
      [JAct.getObjectClass, JAct.newGlobalRef, JAct.findStaticGetRune,
       JAct.setCurrentContext, JAct.findGetTmpdir, JAct.callGetTmpdir,
       JAct.setTmpdirEnv e.tmpdir, JAct.dlsymMainMain, JAct.callMain e.mainPC]
        ++ callbackInstallTrace ∧
    (ANativeActivity_onCreate s e).1.current_class = some (e.globalRef e.objectClass) ∧
    (ANativeActivity_onCreate s e).1.key_rune_method = e.findGetRune ∧
    (ANativeActivity_onCreate s e).1.main_running = 1 := by
  refine ⟨?_, ?_, ?_, ?_⟩ <;> simp [ANativeActivity_onCreate, h]

/-- C4 witness: first call from the fresh process state with a fully
successful oracle. -/
theorem c4_witness :
    (ANativeActivity_onCreate sFresh eOn1).2 =
      [JAct.getObjectClass, JAct.newGlobalRef, JAct.findStaticGetRune,
       JAct.setCurrentContext, JAct.findGetTmpdir, JAct.callGetTmpdir,
       JAct.setTmpdirEnv eOn1.tmpdir, JAct.dlsymMainMain, JAct.callMain eOn1.mainPC]
        ++ callbackInstallTrace ∧
    (ANativeActivity_onCreate sFresh eOn1).1.current_class =
      some (eOn1.globalRef eOn1.objectClass) ∧
    (ANativeActivity_onCreate sFresh eOn1).1.key_rune_method = eOn1.findGetRune ∧
    (ANativeActivity_onCreate sFresh eOn1).1.main_running = 1 :=
  c4_onCreate_first_run sFresh eOn1 rfl

/-- C5: every invocation of `ANativeActivity_onCreate` — whatever the
state — ends by installing the fourteen callbacks `onStart`, `onResume`,
`onSaveInstanceState`, `onPause`, `onStop`, `onDestroy`,
`onWindowFocusChanged`, `onNativeWindowCreated`,
`onNativeWindowRedrawNeeded`, `onNativeWindowDestroyed`,
`onInputQueueCreated`, `onInputQueueDestroyed`, `onConfigurationChanged`
and `onLowMemory`, in source order, and then forwards the creation event
by calling `onCreate(activity)`. -/
theorem c5_callbacks_every_call (s : GlobalState) (e : OnCreateEnv) :
    ∃ head, (ANativeActivity_onCreate s e).2 =
      head ++
      [JAct.setCallback ("onStart"), JAct.setCallback ("onResume"),
       JAct.setCallback ("onSaveInstanceState"), JAct.setCallback ("onPause"),
       JAct.setCallback ("onStop"), JAct.setCallback ("onDestroy"),
       JAct.setCallback ("onWindowFocusChanged"),
       JAct.setCallback ("onNativeWindowCreated"),
       JAct.setCallback ("onNativeWindowRedrawNeeded"),
       JAct.setCallback ("onNativeWindowDestroyed"),
       JAct.setCallback ("onInputQueueCreated"),
       JAct.setCallback ("onInputQueueDestroyed"),
       JAct.setCallback ("onConfigurationChanged"),
       JAct.setCallback ("onLowMemory"), JAct.callOnCreate] :=
  ⟨_, rfl⟩

/-- Recognises the first-call-only work of `ANativeActivity_onCreate`:
the class lookup and caching, the `getRune` lookup, the context
publication, the TMPDIR setup, the `dlsym` resolution and the `callMain`
entry-point call. -/
def entryInit : JAct → Bool := fun a =>
  match a with
  | JAct.getObjectClass => true
  | JAct.newGlobalRef => true
  | JAct.findStaticGetRune => true
  | JAct.setCurrentContext => true
  | JAct.findGetTmpdir => true
  | JAct.callGetTmpdir => true
  | JAct.setTmpdirEnv _ => true
  | JAct.dlsymMainMain => true
  | JAct.callMain _ => true
  | _ => false

/-- C9: once `main_running` is nonzero, `ANativeActivity_onCreate`
leaves the state untouched and its whole trace is the callback
installation tail, which contains no class lookup, no TMPDIR setup, no
`dlsym` and no `callMain`; and any call made while `main_running = 0`
sets `main_running` to `1`, so `main.main` is started at most once. -/
theorem c9_main_at_most_once (s : GlobalState) (e e2 : OnCreateEnv)
    (h : s.main_running ≠ 0) :
    ANativeActivity_onCreate s e = (s, callbackInstallTrace) ∧
    callbackInstallTrace.any entryInit = false ∧
    (∀ s0 : GlobalState, s0.main_running = 0 →
      ((ANativeActivity_onCreate s0 e2).1).main_running = 1) := by
  refine ⟨?_, by decide, fun s0 h0 => by simp [ANativeActivity_onCreate, h0]⟩
  simp [ANativeActivity_onCreate, h]

/-- C9 witness: a second call (state already running) changes nothing
and only installs callbacks; the first call from the fresh state flips
`main_running` to `1`. -/
theorem c9_witness :
    ANativeActivity_onCreate { sFresh with main_running := 1 } eOn1 =
      ({ sFresh with main_running := 1 }, callbackInstallTrace) ∧
    ((ANativeActivity_onCreate sFresh eOn1).1).main_running = 1 :=
  ⟨(c9_main_at_most_once { sFresh with main_running := 1 } eOn1 eOn1 (by decide)).1,
   (c9_main_at_most_once { sFresh with main_running := 1 } eOn1 eOn1 (by decide)).2.2
     sFresh rfl⟩

/-- C7: `setupClipboardManager` and `setupBrowser` are idempotent — from
any state in which initialisation completed (`clipboardManager` cached
with `clipboardFailed = 0`, respectively `browserInitCompleted = 1` with
`browserFailed = 0`) or a failure was recorded (flag `= 1`), the call
returns immediately: no JNI call is performed (empty trace) and the
whole global state, every cached handle included, is unchanged. -/
theorem c7_setup_idempotent (act : Activity) (s : GlobalState)
    (e1 : ClipSetupEnv) (e2 : BrowserEnv) :
    (((s.clipboardFailed = 0 ∧ s.clipboardManager ≠ none) ∨ s.clipboardFailed = 1) →
      setupClipboardManager act s e1 = (s, [])) ∧
    (((s.browserFailed = 0 ∧ s.browserInitCompleted = 1) ∨ s.browserFailed = 1) →
      setupBrowser s e2 = (s, [])) := by
  constructor
  · rintro (⟨h0, hm⟩ | h1)
    · simp [setupClipboardManager, h0, hm]
    · simp [setupClipboardManager, h1]
  · rintro (⟨h0, hm⟩ | h1)
    · simp [setupBrowser, h0, hm]
    · simp [setupBrowser, h1]

/-- C7 witness: both setup functions return at once, with no JNI call
and no state change, from a state where both initialisations completed,
even with oracles that would answer every lookup. -/
theorem c7_witness :
    setupClipboardManager act1
        { sFresh with clipboardManager := some 1, browserInitCompleted := 1 }
        eClipSetup1 =
      ({ sFresh with clipboardManager := some 1, browserInitCompleted := 1 }, []) ∧
    setupBrowser { sFresh with clipboardManager := some 1, browserInitCompleted := 1 }
        eBrowser1 =
      ({ sFresh with clipboardManager := some 1, browserInitCompleted := 1 }, []) :=
  ⟨(c7_setup_idempotent act1
      { sFresh with clipboardManager := some 1, browserInitCompleted := 1 }
      eClipSetup1 eBrowser1).1 (Or.inl ⟨rfl, by decide⟩),
   (c7_setup_idempotent act1
      { sFresh with clipboardManager := some 1, browserInitCompleted := 1 }
      eClipSetup1 eBrowser1).2 (Or.inl ⟨rfl, rfl⟩)⟩

/-- C8: the failure flags are one-way latches. With `clipboardFailed = 1`:
no operation resets it (every modelled operation's result state still has
`clipboardFailed = 1`), `getClipboardString` returns `""` immediately
with no JNI call, `setClipboardString` returns with no JNI call, and
`JVMEnsureAttached` returns `NULL`. With `browserFailed = 1`: no
operation resets it, and `openUrl` returns with no JNI call. -/
theorem c8_failure_latch (s : GlobalState) (act : Activity) (eCS : ClipSetupEnv)
    (eB : BrowserEnv) (eR : ClipReadEnv) (eW : ClipWriteEnv) (eU : OpenUrlEnv)
    (eO : OnCreateEnv) (inp url : List Char) (g a : Bool) :
    (s.clipboardFailed = 1 →
      getClipboardString s eR = (s, [], CRet.ret (some [])) ∧
      setClipboardString s eW inp = (s, [], Exec.normal) ∧
      JVMEnsureAttached s g a = none ∧
      (setupClipboardManager act s eCS).1.clipboardFailed = 1 ∧
      (setupBrowser s eB).1.clipboardFailed = 1 ∧
      (getClipboardString s eR).1.clipboardFailed = 1 ∧
      (setClipboardString s eW inp).1.clipboardFailed = 1 ∧
      (openUrl s eU url).1.clipboardFailed = 1 ∧
      (ANativeActivity_onCreate s eO).1.clipboardFailed = 1) ∧
    (s.browserFailed = 1 →
      openUrl s eU url = (s, [], Exec.normal) ∧
      (setupBrowser s eB).1.browserFailed = 1 ∧
      (setupClipboardManager act s eCS).1.browserFailed = 1 ∧
      (getClipboardString s eR).1.browserFailed = 1 ∧
      (setClipboardString s eW inp).1.browserFailed = 1 ∧
      (openUrl s eU url).1.browserFailed = 1 ∧
      (ANativeActivity_onCreate s eO).1.browserFailed = 1) := by
  constructor
  · intro hc
    refine ⟨by simp [getClipboardString, hc], by simp [setClipboardString, hc],
            by simp [JVMEnsureAttached, hc], by simp [setupClipboardManager, hc],
            ?_, by simp [getClipboardString, hc], by simp [setClipboardString, hc],
            ?_, ?_⟩
    · rw [setupBrowser_clipboardFailed]; exact hc
    · rw [openUrl_clipboardFailed]; exact hc
    · rw [(onCreate_flags s eO).1]; exact hc
  · intro hb
    refine ⟨by simp [openUrl, hb], by simp [setupBrowser, hb], ?_, ?_, ?_,
            by simp [openUrl, hb], ?_⟩
    · rw [setupClipboardManager_browserFailed]; exact hb
    · rw [getClipboardString_browserFailed]; exact hb
    · rw [setClipboardString_browserFailed]; exact hb
    · rw [(onCreate_flags s eO).2]; exact hb

/-- C8 witness: from a state with both flags latched, the fast paths of
`JVMEnsureAttached`, `getClipboardString`, `setClipboardString` and
`openUrl`, instantiated with oracles that would answer every call. -/
theorem c8_witness :
    JVMEnsureAttached { sFresh with clipboardFailed := 1, browserFailed := 1 }
        true true = none ∧
    getClipboardString { sFresh with clipboardFailed := 1, browserFailed := 1 }
        eRead1 =
      ({ sFresh with clipboardFailed := 1, browserFailed := 1 }, [],
       CRet.ret (some [])) ∧
    setClipboardString { sFresh with clipboardFailed := 1, browserFailed := 1 }
        eWrite1 (("hi").toList) =
      ({ sFresh with clipboardFailed := 1, browserFailed := 1 }, [], Exec.normal) ∧
    openUrl { sFresh with clipboardFailed := 1, browserFailed := 1 }
        eUrl1 (("x").toList) =
      ({ sFresh with clipboardFailed := 1, browserFailed := 1 }, [], Exec.normal) :=
  ⟨((c8_failure_latch { sFresh with clipboardFailed := 1, browserFailed := 1 }
      act1 eClipSetup1 eBrowser1 eRead1 eWrite1 eUrl1 eOn1 (("hi").toList)
      (("x").toList) true true).1 rfl).2.2.1,
   ((c8_failure_latch { sFresh with clipboardFailed := 1, browserFailed := 1 }
      act1 eClipSetup1 eBrowser1 eRead1 eWrite1 eUrl1 eOn1 (("hi").toList)
      (("x").toList) true true).1 rfl).1,
   ((c8_failure_latch { sFresh with clipboardFailed := 1, browserFailed := 1 }
      act1 eClipSetup1 eBrowser1 eRead1 eWrite1 eUrl1 eOn1 (("hi").toList)
      (("x").toList) true true).1 rfl).2.1,
   ((c8_failure_latch { sFresh with clipboardFailed := 1, browserFailed := 1 }
      act1 eClipSetup1 eBrowser1 eRead1 eWrite1 eUrl1 eOn1 (("hi").toList)
      (("x").toList) true true).2 rfl).1⟩

/-- C1: evaluation at the failing input. In `eBrowserBug` every lookup
succeeds except the final `GetMethodID` for `startActivity`, which
returns `NULL`; yet `setupBrowser` finishes with `browserFailed = 0`,
`browserInitCompleted = 1`, a `NULL` `startActivityFunc` and an
untouched (still zero) `browserLastError`, because the check after the
`startActivity` lookup re-tests `intentConstructor` (android.c:601-602)
— contradicting the claim (and the source's own error message
`"failed to find startActivity function"`). -/
theorem c1_setupBrowser_startActivity_unchecked :
    eBrowserBug.findStartActivity = none ∧
    (setupBrowser sFresh eBrowserBug).1.browserFailed = 0 ∧
    (setupBrowser sFresh eBrowserBug).1.browserInitCompleted = 1 ∧
    (setupBrowser sFresh eBrowserBug).1.startActivityFunc = none ∧
    (setupBrowser sFresh eBrowserBug).1.browserLastError 0 = nulChar :=
  ⟨rfl, rfl, rfl, rfl, rfl⟩

/-- A read oracle in which the very first checked call,
`getPrimaryClip`, returns `NULL`. -/
def eReadFail1 : ClipReadEnv := { eRead1 with callGetPrimaryClip := none }

/-- C3 counterexample: with the JVM attached, the four object-returning
calls succeed but the final JNI step, `GetStringUTFChars`, fails
(returns `NULL`); `getClipboardString` then returns that `NULL` pointer
— not the empty string — and records nothing: the state, the error
buffer included, is unchanged. So not every failing JNI step inside the
function is captured and turned into `""`. -/
theorem c3_counterexample :
    eReadNullUTF.getStringUTFChars = none ∧
    getClipboardString sFresh eReadNullUTF =
      (sFresh,
       [JAct.jniCall ("JVMEnsureAttached"),
        JAct.jniCall ("CallObjectMethod getPrimaryClip"),
        JAct.jniCall ("CallObjectMethod getItemAt"),
        JAct.jniCall ("CallObjectMethod getText"),
        JAct.jniCall ("CallObjectMethod toString"),
        JAct.jniCall ("GetStringUTFChars")], CRet.ret none) ∧
    CRet.ret (none : Option (List Char)) ≠ CRet.ret (some []) := by
  refine ⟨rfl, rfl, by decide⟩

/-- C3 as amended: with `clipboardFailed = 0` and the JVM attached, each
of the four *checked* object-returning JNI calls that returns `NULL`
makes `getClipboardString` capture the pending exception's message with
that step's context prefix into `clipboardLastError` — the buffer
`getLastClipboardError` returns — and answer the empty string; when all
four succeed the function returns the (unchecked) `GetStringUTFChars`
result as is and leaves the state untouched. -/
theorem c3_amended_checked_steps (s : GlobalState) (e : ClipReadEnv)
    (h0 : s.clipboardFailed = 0) (hA : e.getEnvOk = true) :
    (e.callGetPrimaryClip = none →
      (getClipboardString s e).2.2 = CRet.ret (some []) ∧
      (getClipboardString s e).1.clipboardLastError =
        copyExceptionMessage (("Error getting clipboard data").toList) e.excMsg 512
          s.clipboardLastError ∧
      getLastClipboardError (getClipboardString s e).1 =
        (getClipboardString s e).1.clipboardLastError ∧
      (∀ i, i < 512 → (getClipboardString s e).1.clipboardLastError i =
        (padTrunc ((("Error getting clipboard data").toList) ++ e.excMsg) 512).getD i
          nulChar)) ∧
    (e.callGetPrimaryClip ≠ none → e.callGetItemAt = none →
      (getClipboardString s e).2.2 = CRet.ret (some []) ∧
      (getClipboardString s e).1.clipboardLastError =
        copyExceptionMessage (("Error getting first item of clipboard").toList)
          e.excMsg 512 s.clipboardLastError) ∧
    (e.callGetPrimaryClip ≠ none → e.callGetItemAt ≠ none → e.callGetText = none →
      (getClipboardString s e).2.2 = CRet.ret (some []) ∧
      (getClipboardString s e).1.clipboardLastError =
        copyExceptionMessage (("Looks like no text is copied right now").toList)
          e.excMsg 512 s.clipboardLastError) ∧
    (e.callGetPrimaryClip ≠ none → e.callGetItemAt ≠ none → e.callGetText ≠ none →
      e.callToString = none →
      (getClipboardString s e).2.2 = CRet.ret (some []) ∧
      (getClipboardString s e).1.clipboardLastError =
        copyExceptionMessage (("CharSequence could not be converted to string").toList)
          e.excMsg 512 s.clipboardLastError) ∧
    (e.callGetPrimaryClip ≠ none → e.callGetItemAt ≠ none → e.callGetText ≠ none →
      e.callToString ≠ none →
      (getClipboardString s e).2.2 = CRet.ret e.getStringUTFChars ∧
      (getClipboardString s e).1 = s) := by
  have hAtt : JVMEnsureAttached s e.getEnvOk e.attachOk = some () := by
    simp [JVMEnsureAttached, h0, hA]
  refine ⟨?_, ?_, ?_, ?_, ?_⟩
  · intro h1
    refine ⟨?_, ?_, rfl, ?_⟩
    · simp [getClipboardString, h0, hAtt, h1]
    · simp [getClipboardString, h0, hAtt, h1, clipCapture]
    · intro i hi
      have hb : (getClipboardString s e).1.clipboardLastError =
          copyExceptionMessage (("Error getting clipboard data").toList) e.excMsg 512
            s.clipboardLastError := by
        simp [getClipboardString, h0, hAtt, h1, clipCapture]
      rw [hb]
      exact copyExceptionMessage_content _ _ _ _ (by decide) i hi
  · intro h1 h2
    rcases hP : e.callGetPrimaryClip with _ | v1
    · exact absurd hP h1
    constructor
    · simp [getClipboardString, h0, hAtt, hP, h2]
    · simp [getClipboardString, h0, hAtt, hP, h2, clipCapture]
  · intro h1 h2 h3
    rcases hP : e.callGetPrimaryClip with _ | v1
    · exact absurd hP h1
    rcases hI : e.callGetItemAt with _ | v2
    · exact absurd hI h2
    constructor
    · simp [getClipboardString, h0, hAtt, hP, hI, h3]
    · simp [getClipboardString, h0, hAtt, hP, hI, h3, clipCapture]
  · intro h1 h2 h3 h4
    rcases hP : e.callGetPrimaryClip with _ | v1
    · exact absurd hP h1
    rcases hI : e.callGetItemAt with _ | v2
    · exact absurd hI h2
    rcases hT : e.callGetText with _ | v3
    · exact absurd hT h3
    constructor
    · simp [getClipboardString, h0, hAtt, hP, hI, hT, h4]
    · simp [getClipboardString, h0, hAtt, hP, hI, hT, h4, clipCapture]
  · intro h1 h2 h3 h4
    rcases hP : e.callGetPrimaryClip with _ | v1
    · exact absurd hP h1
    rcases hI : e.callGetItemAt with _ | v2
    · exact absurd hI h2
    rcases hT : e.callGetText with _ | v3
    · exact absurd hT h3
    rcases hS : e.callToString with _ | v4
    · exact absurd hS h4
    constructor
    · simp [getClipboardString, h0, hAtt, hP, hI, hT, hS]
    · simp [getClipboardString, h0, hAtt, hP, hI, hT, hS]

/-- C3 witness: from the fresh state, a failing `getPrimaryClip` call
yields the empty string and the prefixed capture into
`clipboardLastError`; a fully successful read returns the clipboard
text `"hello"` unchanged. -/
theorem c3_witness :
    (getClipboardString sFresh eReadFail1).2.2 = CRet.ret (some []) ∧
    (getClipboardString sFresh eReadFail1).1.clipboardLastError =
      copyExceptionMessage (("Error getting clipboard data").toList)
        eReadFail1.excMsg 512 sFresh.clipboardLastError ∧
    (getClipboardString sFresh eRead1).2.2 = CRet.ret (some (("hello").toList)) ∧
    (getClipboardString sFresh eRead1).1 = sFresh :=
  ⟨((c3_amended_checked_steps sFresh eReadFail1 rfl rfl).1 rfl).1,
   ((c3_amended_checked_steps sFresh eReadFail1 rfl rfl).1 rfl).2.1,
   ((c3_amended_checked_steps sFresh eRead1 rfl rfl).2.2.2.2
      (by decide) (by decide) (by decide) (by decide)).1,
   ((c3_amended_checked_steps sFresh eRead1 rfl rfl).2.2.2.2
      (by decide) (by decide) (by decide) (by decide)).2⟩

/-- An EGL oracle in which every call, context creation included,
succeeds. -/
def eEGLOk : EGLEnv := { eEGLBugCtx with createContext := fun _ => 3 }

/-- C2 witness: with an already-initialised display and an oracle whose
checked calls all succeed, `createEGLSurface` returns `NULL`. -/
theorem c2_witness : (createEGLSurface stDisp1 eEGLOk).2 = none :=
  (c2_amended_checked_calls stDisp1 eEGLOk).mpr
    ⟨fun h => absurd h (by decide), rfl, by decide, rfl, by decide, rfl⟩
